import Mathlib

/-!
# Flight Routes Visualization — verified model of the Route Explorer Panel

Shallow embedding of the client-side filter/re-render loop embedded in
`src/generate_map.py` (the JavaScript in the HTML template, lines 146-276),
together with the dropdown population done by `generate_html`
(`src_airports = sorted(df["src_airport"].unique().tolist())`, line 36).

Coordinates are only carried through to the rendering layers, never computed
with, so they are modelled as integers.
-/

/-- A route record: one row of the routes table after column selection
(`route_cols` in `generate_map.py`). -/
structure Route where
  src_airport : String
  dst_airport : String
  src_lat : Int
  src_lon : Int
  dst_lat : Int
  dst_lon : Int
deriving DecidableEq

/-- One airport feature of `AIRPORTS_GEOJSON.features`: the properties `id`
and `name` and the geometry coordinates, which are all the script reads. -/
structure Feature where
  id : String
  name : String
  lon : Int
  lat : Int
deriving DecidableEq

/-- The client-side Selection State: the value of the select element and the
two checkbox states (`show-routes`, `show-airports`). -/
structure SelState where
  selectedCode : String
  showRoutes : Bool
  showAirports : Bool
deriving DecidableEq

/-- A deck.gl overlay layer as built by `updateLayers`: either the
`ArcLayer` (data = filtered routes) or the `ScatterplotLayer`
(data = filtered airports; its colour/radius accessors close over the
selected code, so the code is part of the layer). -/
inductive Layer where
  | arc (data : List Route)
  | scatter (data : List Feature) (selectedCode : String)
deriving DecidableEq

/-- Whether a layer is the route-arc layer. -/
def Layer.isArc : Layer → Bool
  | .arc _ => true
  | .scatter _ _ => false

/-- The four values interpolated into `statsDiv.innerHTML` by
`updateLayers`. -/
structure Stats where
  selectedCode : String
  displayName : String
  routesCount : Nat
  destinationsCount : Nat
deriving DecidableEq

/-- `getAirportName(code)`: the `name` property of the first feature whose
`id` equals the code, falling back to the code itself. -/
def getAirportName (features : List Feature) (code : String) : String :=
  match features.find? (fun f => f.id == code) with
  | some f => f.name
  | none => code

/-- Everything `updateLayers` computes on one run: the intermediate arrays,
the stats values written to the summary, and the layer list handed to the
deck.gl overlay. -/
structure ViewResult where
  filteredRoutes : List Route
  connectedCodes : Finset String
  filteredAirports : List Feature
  stats : Stats
  layers : List Layer
deriving DecidableEq

/-- The body of `updateLayers` (lines 189-266 of `generate_map.py`):
filter the routes by selected source code, build the connected-code set
(destinations plus the selected code), filter the airport features by it,
compute the stats, and build the layer list per the two checkboxes
(arc layer pushed first, then the scatterplot layer). -/
def updateLayers (routesData : List Route) (features : List Feature)
    (sel : SelState) : ViewResult :=
  let selectedCode := sel.selectedCode
  let filteredRoutes := routesData.filter (fun d => d.src_airport == selectedCode)
  let connectedCodes : Finset String :=
    insert selectedCode (filteredRoutes.map (fun d => d.dst_airport)).toFinset
  let filteredAirports := features.filter (fun f => decide (f.id ∈ connectedCodes))
  let stats : Stats :=
    { selectedCode := selectedCode
      displayName := getAirportName features selectedCode
      routesCount := filteredRoutes.length
      destinationsCount := connectedCodes.card - 1 }
  let layers :=
    (if sel.showRoutes then [Layer.arc filteredRoutes] else []) ++
    (if sel.showAirports then [Layer.scatter filteredAirports selectedCode] else [])
  { filteredRoutes := filteredRoutes
    connectedCodes := connectedCodes
    filteredAirports := filteredAirports
    stats := stats
    layers := layers }

/-- `src_airports = sorted(df["src_airport"].unique().tolist())`
(`generate_map.py` line 36): the distinct source-airport codes of the route
table, sorted lexicographically by code point (the comparison is stated on
the character lists, which Mathlib proves coincides with the `String` order:
`String.le_iff_toList_le`; a sort of a duplicate-free list is determined
up to nothing, so any correct sort produces this same list). -/
def srcAirportOptions (routes : List Route) : List String :=
  ((routes.map (fun r => r.src_airport)).dedup).insertionSort
    (fun a b => a.data ≤ b.data)

/-- One `option` element appended to the select by the
`SRC_AIRPORTS.forEach` loop. -/
structure SelectOption where
  value : String
  text : String
  selected : Bool
deriving DecidableEq

/-- The `SRC_AIRPORTS.forEach` dropdown-population loop (lines 160-166):
one option per code, marked selected iff it equals `currentAirport`. -/
def populateDropdown (srcAirports : List String) (currentAirport : String) :
    List SelectOption :=
  srcAirports.map (fun code => { value := code, text := code, selected := code == currentAirport })

/-- The page-level mutable environment: the three embedded constants
(`ROUTES_DATA`, `AIRPORTS_GEOJSON`, `SRC_AIRPORTS`), the Selection State
held by the DOM controls, the deck.gl overlay's layer list (none before the
overlay is created), and the summary contents (none before the first
`updateLayers` run). -/
structure AppState where
  routesData : List Route
  airportsFeatures : List Feature
  srcAirports : List String
  sel : SelState
  overlayLayers : Option (List Layer)
  statsHtml : Option Stats
deriving DecidableEq

/-- Run `updateLayers` against the current state and store its outputs
(summary text; overlay layers via create-or-`setProps`). -/
def applyUpdateLayers (st : AppState) : AppState :=
  let v := updateLayers st.routesData st.airportsFeatures st.sel
  { st with overlayLayers := some v.layers, statsHtml := some v.stats }

/-- The select element's change handler: the select now holds the new code
and `updateLayers` runs. -/
def onSelectionChange (code : String) (st : AppState) : AppState :=
  applyUpdateLayers { st with sel := { st.sel with selectedCode := code } }

/-- The `show-routes` checkbox change handler. -/
def onToggleRoutes (value : Bool) (st : AppState) : AppState :=
  applyUpdateLayers { st with sel := { st.sel with showRoutes := value } }

/-- The `show-airports` checkbox change handler. -/
def onToggleAirports (value : Bool) (st : AppState) : AppState :=
  applyUpdateLayers { st with sel := { st.sel with showAirports := value } }

/-- The scatterplot layer's `onClick` handler (lines 239-248), for a click
that hit a rendered point (`info.object` present): if the clicked feature's
`id` is in `SRC_AIRPORTS`, set the select to it and rerun `updateLayers`;
otherwise do nothing. -/
def onMapPointClick (clicked : Feature) (st : AppState) : AppState :=
  if clicked.id ∈ st.srcAirports then onSelectionChange clicked.id st else st

/-- The initial page state: embedded data, `currentAirport = "ATL"`
hardcoded (line 153), both checkboxes checked in the HTML, no overlay and
the placeholder summary yet. -/
def initAppState (routesData : List Route) (features : List Feature) : AppState :=
  { routesData := routesData
    airportsFeatures := features
    srcAirports := srcAirportOptions routesData
    sel := { selectedCode := "ATL", showRoutes := true, showAirports := true }
    overlayLayers := none
    statsHtml := none }

/-- Modelled from the spec (§8 example and §4.1 "distinct-destination
count"): the number of distinct destination codes occurring in the routes
whose source is the given code. Used only to compare the spec's wording
with what the code computes. -/
def specDistinctDestinationCount (routes : List Route) (code : String) : Nat :=
  ((routes.filter (fun d => d.src_airport == code)).map (fun d => d.dst_airport)).dedup.length

/-! ## Theorems -/

/-- C1: for every airport code C and route dataset, the filtered route list
computed on a selection change with code C contains exactly the routes whose
source-airport field equals C: membership in `filteredRoutes` is equivalent
to being a dataset route with source C. -/
theorem filteredRoutes_exact (routesData : List Route) (features : List Feature)
    (sr sa : Bool) (C : String) (r : Route) :
    r ∈ (updateLayers routesData features ⟨C, sr, sa⟩).filteredRoutes ↔
      r ∈ routesData ∧ r.src_airport = C := by
  simp [updateLayers]

/-- C2: the connected airport set computed on a selection change with code C
always contains C itself, and it is exactly the set of destinations of the
routes with source C together with C — for every dataset, including one
where C has no outgoing route. -/
theorem connectedCodes_charact (routesData : List Route) (features : List Feature)
    (sr sa : Bool) (C : String) :
    C ∈ (updateLayers routesData features ⟨C, sr, sa⟩).connectedCodes ∧
      (∀ x, x ∈ (updateLayers routesData features ⟨C, sr, sa⟩).connectedCodes ↔
        (x = C ∨ ∃ r ∈ routesData, r.src_airport = C ∧ r.dst_airport = x)) := by
  constructor
  · simp [updateLayers]
  · intro x
    simp only [updateLayers, Finset.mem_insert, List.mem_toFinset, List.mem_map,
      List.mem_filter, beq_iff_eq]
    constructor
    · rintro (rfl | ⟨r, ⟨hr, hsrc⟩, rfl⟩)
      · exact Or.inl rfl
      · exact Or.inr ⟨r, hr, hsrc, rfl⟩
    · rintro (rfl | ⟨r, hr, hsrc, rfl⟩)
      · exact Or.inl rfl
      · exact Or.inr ⟨r, ⟨hr, hsrc⟩, rfl⟩

/-- C7: every event handler — selection change, either visibility toggle,
map-point click — leaves the loaded route dataset, the airport feature
collection and the source-airport code list unchanged. -/
theorem handlers_preserve_datasets (st : AppState) (code : String) (v : Bool)
    (clicked : Feature) :
    ((onSelectionChange code st).routesData = st.routesData ∧
      (onSelectionChange code st).airportsFeatures = st.airportsFeatures ∧
      (onSelectionChange code st).srcAirports = st.srcAirports) ∧
    ((onToggleRoutes v st).routesData = st.routesData ∧
      (onToggleRoutes v st).airportsFeatures = st.airportsFeatures ∧
      (onToggleRoutes v st).srcAirports = st.srcAirports) ∧
    ((onToggleAirports v st).routesData = st.routesData ∧
      (onToggleAirports v st).airportsFeatures = st.airportsFeatures ∧
      (onToggleAirports v st).srcAirports = st.srcAirports) ∧
    ((onMapPointClick clicked st).routesData = st.routesData ∧
      (onMapPointClick clicked st).airportsFeatures = st.airportsFeatures ∧
      (onMapPointClick clicked st).srcAirports = st.srcAirports) := by
  refine ⟨⟨rfl, rfl, rfl⟩, ⟨rfl, rfl, rfl⟩, ⟨rfl, rfl, rfl⟩, ?_⟩
  unfold onMapPointClick
  split
  · exact ⟨rfl, rfl, rfl⟩
  · exact ⟨rfl, rfl, rfl⟩

/-- C5: rebuilding the view with a visibility flag turned off yields the
layer list of the current view with exactly the corresponding layer removed
(the arc layer for the routes flag, the scatterplot layer for the airports
flag, kept with identical contents otherwise), the summary unchanged; and
the toggle handlers never change the Selection State's airport code. -/
theorem toggle_removes_exactly_its_layer (routesData : List Route)
    (features : List Feature) (s : SelState) (st : AppState) :
    ((updateLayers routesData features { s with showRoutes := false }).layers =
        (updateLayers routesData features s).layers.filter (fun l => ! l.isArc) ∧
      (updateLayers routesData features { s with showRoutes := false }).stats =
        (updateLayers routesData features s).stats) ∧
    ((updateLayers routesData features { s with showAirports := false }).layers =
        (updateLayers routesData features s).layers.filter (fun l => l.isArc) ∧
      (updateLayers routesData features { s with showAirports := false }).stats =
        (updateLayers routesData features s).stats) ∧
    (∀ v : Bool, (onToggleRoutes v st).sel.selectedCode = st.sel.selectedCode ∧
      (onToggleAirports v st).sel.selectedCode = st.sel.selectedCode) := by
  refine ⟨⟨?_, rfl⟩, ⟨?_, rfl⟩, fun v => ⟨rfl, rfl⟩⟩
  · cases hR : s.showRoutes <;> cases hA : s.showAirports <;>
      simp [updateLayers, hR, hA, Layer.isArc]
  · cases hR : s.showRoutes <;> cases hA : s.showAirports <;>
      simp [updateLayers, hR, hA, Layer.isArc]

/-- C6: a click on a rendered airport point whose code is in the
source-airport option list produces exactly the state a selection-change
event with that code would; a click on one whose code is not an option
leaves the whole page state (Selection State included) unchanged, with no
redraw. -/
theorem click_select_equiv (st : AppState) (clicked : Feature) :
    (clicked.id ∈ st.srcAirports →
      onMapPointClick clicked st = onSelectionChange clicked.id st) ∧
    (clicked.id ∉ st.srcAirports → onMapPointClick clicked st = st) := by
  constructor
  · intro h
    unfold onMapPointClick
    simp [h]
  · intro h
    unfold onMapPointClick
    simp [h]

/-- Witness for C6 at a concrete input: a dataset whose option list contains
the clicked code, and a clicked feature whose code is absent. -/
theorem click_select_equiv_witness :
    (onMapPointClick ⟨"ATL", "Hartsfield", -84, 33⟩
        (initAppState [⟨"ATL", "JFK", 33, -84, 40, -73⟩] []) =
      onSelectionChange "ATL" (initAppState [⟨"ATL", "JFK", 33, -84, 40, -73⟩] [])) ∧
    (onMapPointClick ⟨"JFK", "Kennedy", -73, 40⟩
        (initAppState [⟨"ATL", "JFK", 33, -84, 40, -73⟩] []) =
      initAppState [⟨"ATL", "JFK", 33, -84, 40, -73⟩] []) := by
  constructor
  · exact (click_select_equiv (initAppState [⟨"ATL", "JFK", 33, -84, 40, -73⟩] [])
      ⟨"ATL", "Hartsfield", -84, 33⟩).1 (by decide)
  · exact (click_select_equiv (initAppState [⟨"ATL", "JFK", 33, -84, 40, -73⟩] [])
      ⟨"JFK", "Kennedy", -73, 40⟩).2 (by decide)

/-- The destinations figure the code computes, `connectedCodes.size - 1`,
equals the number of distinct destinations in the set other than the
selected code itself. -/
theorem card_insert_sub_one {S : Finset String} {C : String} :
    (insert C S).card - 1 = (S.erase C).card := by
  by_cases h : C ∈ S
  · rw [Finset.insert_eq_self.mpr h, Finset.card_erase_of_mem h]
  · rw [Finset.card_insert_of_not_mem h, Finset.erase_eq_of_not_mem h,
      Nat.add_sub_cancel]

/-- C3 counterexample: on the dataset holding the single self-loop route
ATL→ATL, the summary's destination count is 0 while the number of distinct
destination codes occurring in the filtered routes is 1 — so the claim that
the reported destination count is the distinct-destination count for every
dataset, self-loops included, is false of the code. -/
theorem stats_destinations_self_loop_cex :
    (updateLayers [⟨"ATL", "ATL", 33, -84, 33, -84⟩] []
        ⟨"ATL", true, true⟩).stats.destinationsCount = 0 ∧
      specDistinctDestinationCount [⟨"ATL", "ATL", 33, -84, 33, -84⟩] "ATL" = 1 := by
  decide

/-- C3 (amended): after a selection change with code C the summary's route
count is the number of routes with source C, and its destination count is
the number of distinct destination codes OTHER THAN C occurring in those
routes; the latter agrees with the distinct-destination count whenever the
dataset has no self-loop route C→C. -/
theorem stats_counts (routesData : List Route) (features : List Feature)
    (sr sa : Bool) (C : String) :
    (updateLayers routesData features ⟨C, sr, sa⟩).stats.routesCount =
        (routesData.filter (fun r => r.src_airport == C)).length ∧
    (updateLayers routesData features ⟨C, sr, sa⟩).stats.destinationsCount =
        (((routesData.filter (fun r => r.src_airport == C)).map
            (fun r => r.dst_airport)).toFinset.erase C).card ∧
    ((∀ r ∈ routesData, r.src_airport = C → r.dst_airport ≠ C) →
      (updateLayers routesData features ⟨C, sr, sa⟩).stats.destinationsCount =
        specDistinctDestinationCount routesData C) := by
  refine ⟨rfl, ?_, ?_⟩
  · simpa [updateLayers] using
      (card_insert_sub_one
        (S := ((routesData.filter (fun r => r.src_airport == C)).map
          (fun r => r.dst_airport)).toFinset) (C := C))
  · intro h
    have hC : C ∉ ((routesData.filter (fun r => r.src_airport == C)).map
        (fun r => r.dst_airport)).toFinset := by
      simp only [List.mem_toFinset, List.mem_map, List.mem_filter, beq_iff_eq]
      rintro ⟨r, ⟨hr, hsrc⟩, hdst⟩
      exact h r hr hsrc hdst
    have : (updateLayers routesData features ⟨C, sr, sa⟩).stats.destinationsCount =
        (((routesData.filter (fun r => r.src_airport == C)).map
          (fun r => r.dst_airport)).toFinset.erase C).card := by
      simpa [updateLayers] using
        (card_insert_sub_one
          (S := ((routesData.filter (fun r => r.src_airport == C)).map
            (fun r => r.dst_airport)).toFinset) (C := C))
    rw [this, Finset.erase_eq_of_not_mem hC, List.card_toFinset]
    rfl

/-- Witness for C3 (amended) at the spec's own example: routes ATL→JFK,
ATL→LAX, ORD→DFW with selection ATL report 2 routes and 2 destinations,
matching the distinct-destination count since no self-loop exists. -/
theorem stats_counts_witness :
    (updateLayers [⟨"ATL", "JFK", 33, -84, 40, -73⟩, ⟨"ATL", "LAX", 33, -84, 34, -118⟩,
        ⟨"ORD", "DFW", 41, -87, 32, -97⟩] [] ⟨"ATL", true, true⟩).stats.destinationsCount =
      specDistinctDestinationCount [⟨"ATL", "JFK", 33, -84, 40, -73⟩,
        ⟨"ATL", "LAX", 33, -84, 34, -118⟩, ⟨"ORD", "DFW", 41, -87, 32, -97⟩] "ATL" :=
  (stats_counts [⟨"ATL", "JFK", 33, -84, 40, -73⟩, ⟨"ATL", "LAX", 33, -84, 34, -118⟩,
    ⟨"ORD", "DFW", 41, -87, 32, -97⟩] [] true true "ATL").2.2 (by decide)

/-- C4: when the selected code C is the source of no route, the
recomputation (a total function, so no error is possible) reports route
count 0 and destination count 0, the filtered route list is empty, and any
arc layer present in the rebuilt layer list carries no entries. -/
theorem empty_selection_zero (routesData : List Route) (features : List Feature)
    (sr sa : Bool) (C : String) (h : ∀ r ∈ routesData, r.src_airport ≠ C) :
    (updateLayers routesData features ⟨C, sr, sa⟩).stats.routesCount = 0 ∧
    (updateLayers routesData features ⟨C, sr, sa⟩).stats.destinationsCount = 0 ∧
    (updateLayers routesData features ⟨C, sr, sa⟩).filteredRoutes = [] ∧
    (∀ data, Layer.arc data ∈ (updateLayers routesData features ⟨C, sr, sa⟩).layers →
      data = []) := by
  have hfil : routesData.filter (fun d => d.src_airport == C) = [] := by
    rw [List.filter_eq_nil_iff]
    intro r hr
    simpa using h r hr
  refine ⟨?_, ?_, ?_, ?_⟩
  · simp [updateLayers, hfil]
  · simp [updateLayers, hfil]
  · simp [updateLayers, hfil]
  · intro data hmem
    cases sr <;> cases sa <;>
      simp_all [updateLayers, hfil]

/-- Witness for C4 at a concrete input: selecting ATL over a dataset whose
only route leaves from ORD. -/
theorem empty_selection_zero_witness :
    (updateLayers [⟨"ORD", "DFW", 41, -87, 32, -97⟩] [] ⟨"ATL", true, true⟩).stats.routesCount = 0 ∧
    (updateLayers [⟨"ORD", "DFW", 41, -87, 32, -97⟩] [] ⟨"ATL", true, true⟩).stats.destinationsCount = 0 ∧
    (updateLayers [⟨"ORD", "DFW", 41, -87, 32, -97⟩] [] ⟨"ATL", true, true⟩).filteredRoutes = [] ∧
    (∀ data, Layer.arc data ∈ (updateLayers [⟨"ORD", "DFW", 41, -87, 32, -97⟩] []
        ⟨"ATL", true, true⟩).layers → data = []) :=
  empty_selection_zero [⟨"ORD", "DFW", 41, -87, 32, -97⟩] [] true true "ATL" (by decide)

/-- C8: the single-select control is populated with exactly the distinct
source-airport codes of the route dataset — each code occurring as some
route's source appears as an option value exactly once, and no other value
appears. -/
theorem dropdown_options_exact (routesData : List Route) (current c : String) :
    ((populateDropdown (srcAirportOptions routesData) current).map
        (fun o => o.value)).count c =
      if c ∈ routesData.map (fun r => r.src_airport) then 1 else 0 := by
  have hvals : (populateDropdown (srcAirportOptions routesData) current).map
      (fun o => o.value) = srcAirportOptions routesData := by
    simp only [populateDropdown, List.map_map, Function.comp]
    exact List.map_id _
  rw [hvals, srcAirportOptions,
    (List.perm_insertionSort (fun a b => a.data ≤ b.data)
      ((routesData.map (fun r => r.src_airport)).dedup)).count_eq,
    List.count_dedup]

/-- C9: the initial Selection State's airport code is the hardcoded "ATL"
for every dataset; no validation against the dataset occurs — when "ATL" is
absent from the source-airport option list the initial code is still "ATL"
(and then no dropdown option is marked selected), and initialization is a
total function, so it never fails. -/
theorem init_state_hardcoded_atl (routesData : List Route) (features : List Feature) :
    (initAppState routesData features).sel.selectedCode = "ATL" ∧
    ("ATL" ∉ srcAirportOptions routesData →
      ∀ o ∈ populateDropdown (initAppState routesData features).srcAirports
          (initAppState routesData features).sel.selectedCode,
        o.selected = false) := by
  refine ⟨rfl, fun h o ho => ?_⟩
  simp only [initAppState, populateDropdown, List.mem_map] at ho
  obtain ⟨code, hcode, rfl⟩ := ho
  simp only [beq_eq_false_iff_ne, ne_eq]
  rintro rfl
  exact h hcode

/-- Witness for C9 at a concrete input: a dataset whose only source code is
ORD, so "ATL" is absent from the option list, yet the initial code is
"ATL" and no option is preselected. -/
theorem init_state_hardcoded_atl_witness :
    (initAppState [⟨"ORD", "DFW", 41, -87, 32, -97⟩] []).sel.selectedCode = "ATL" ∧
    (∀ o ∈ populateDropdown (initAppState [⟨"ORD", "DFW", 41, -87, 32, -97⟩] []).srcAirports
        (initAppState [⟨"ORD", "DFW", 41, -87, 32, -97⟩] []).sel.selectedCode,
      o.selected = false) :=
  ⟨(init_state_hardcoded_atl [⟨"ORD", "DFW", 41, -87, 32, -97⟩] []).1,
    (init_state_hardcoded_atl [⟨"ORD", "DFW", 41, -87, 32, -97⟩] []).2 (by decide)⟩

/-- C10: on every recomputation the airport-point layer's data is exactly
the features whose id is in the connected set; and when no feature carries
the selected code as its id, the selected airport is silently omitted from
the drawn points and the summary's display name falls back to the bare
code, with no error. -/
theorem airport_layer_exact (routesData : List Route) (features : List Feature)
    (sr sa : Bool) (C : String) :
    (∀ f, f ∈ (updateLayers routesData features ⟨C, sr, sa⟩).filteredAirports ↔
      (f ∈ features ∧
        f.id ∈ (updateLayers routesData features ⟨C, sr, sa⟩).connectedCodes)) ∧
    (∀ data sc, Layer.scatter data sc ∈ (updateLayers routesData features ⟨C, sr, sa⟩).layers →
      data = (updateLayers routesData features ⟨C, sr, sa⟩).filteredAirports) ∧
    ((∀ f ∈ features, f.id ≠ C) →
      ((∀ f ∈ (updateLayers routesData features ⟨C, sr, sa⟩).filteredAirports, f.id ≠ C) ∧
        (updateLayers routesData features ⟨C, sr, sa⟩).stats.displayName = C)) := by
  refine ⟨?_, ?_, ?_⟩
  · intro f
    simp [updateLayers]
  · intro data sc hmem
    cases sr <;> cases sa <;> simp_all [updateLayers]
  · intro h
    constructor
    · intro f hf
      have hmem : f ∈ features := by
        simp only [updateLayers, List.mem_filter, decide_eq_true_eq] at hf
        exact hf.1
      exact h f hmem
    · have hfind : features.find? (fun f => f.id == C) = none := by
        rw [List.find?_eq_none]
        intro f hf
        simpa using h f hf
      simp [updateLayers, getAirportName, hfind]

/-- Witness for C10 at a concrete input: the airport collection holds only
JFK, the selection is ATL — the drawn points never carry id ATL and the
summary shows the bare code "ATL". -/
theorem airport_layer_exact_witness :
    (∀ f ∈ (updateLayers [⟨"ATL", "JFK", 33, -84, 40, -73⟩]
        [⟨"JFK", "Kennedy Intl", -73, 40⟩] ⟨"ATL", true, true⟩).filteredAirports,
      f.id ≠ "ATL") ∧
    (updateLayers [⟨"ATL", "JFK", 33, -84, 40, -73⟩]
        [⟨"JFK", "Kennedy Intl", -73, 40⟩] ⟨"ATL", true, true⟩).stats.displayName = "ATL" :=
  (airport_layer_exact [⟨"ATL", "JFK", 33, -84, 40, -73⟩]
    [⟨"JFK", "Kennedy Intl", -73, 40⟩] true true "ATL").2.2 (by decide)
